import Mathlib

/-!
Verification of the effects-ts proof-of-concept repository.

The repository contains arithmetic operations demonstrated twice:
once wrapped in the Effect library's deferred-computation values
(src/1-example.effect.ts) and once as plain throwing functions
(the unnamed plain-TypeScript file).  JavaScript numbers are modelled
as rationals, so that division by a nonzero divisor is exact, matching
the host semantics the spec defers to.  The Effect library itself is
not part of the repository sources, so the deferred-computation
abstraction is modelled from the spec as an explicit data structure
interpreted by a pure function, as the spec's design notes prescribe.
-/

namespace EffectsPoc

/-- Modelled from the spec: the Effect library's deferred computation value
(the spec's DeferredComputation, the library's Effect type), which is missing
from the sources.  A first-class, immutable description of a computation:
either an immediate success, an immediate failure, a computation with a
catch-all recovery handler, or a computation with a tag-dispatched recovery
handler.  Constructing one of these is just building data; no handler is
applied and no outcome is produced at construction time. -/
inductive DC : Type → Type → Type 1 where
  | succeed {E A : Type} (a : A) : DC E A
  | fail {E A : Type} (e : E) : DC E A
  | catchAll {E E2 A : Type} (c : DC E A) (h : E → DC E2 A) : DC E2 A
  | catchTag {E A : Type} (tagOf : E → String) (tg : String)
      (c : DC E A) (h : E → DC E A) : DC E A

/-- Modelled from the spec: execution as pure interpretation of the
description.  Returns the terminal outcome together with the number of
recovery-handler invocations the execution performed, so that the
"handler invoked exactly once, only on failure, only at execution time"
guarantees become statable. -/
def DC.runTrace : {E A : Type} → DC E A → Except E A × Nat
  | _, _, DC.succeed a => (Except.ok a, 0)
  | _, _, DC.fail e => (Except.error e, 0)
  | _, _, DC.catchAll c h =>
    match c.runTrace with
    | (Except.ok a, n) => (Except.ok a, n)
    | (Except.error e, n) =>
      match (h e).runTrace with
      | (r, m) => (r, n + m + 1)
  | _, _, DC.catchTag tagOf tg c h =>
    match c.runTrace with
    | (Except.ok a, n) => (Except.ok a, n)
    | (Except.error e, n) =>
      if tagOf e = tg then
        match (h e).runTrace with
        | (r, m) => (r, n + m + 1)
      else
        (Except.error e, n)

/-- The terminal outcome of executing a deferred computation: exactly one of
success or failure. -/
def DC.run {E A : Type} (c : DC E A) : Except E A :=
  c.runTrace.1

/-- How many recovery handlers an execution of the computation invokes. -/
def DC.handlerCalls {E A : Type} (c : DC E A) : Nat :=
  c.runTrace.2

/-- Outcome of `runSynchronously` at the host boundary: either the success
value is returned, or an unrecoverable fault carrying the failure value is
raised. -/
inductive SyncResult (E A : Type) : Type where
  | value (a : A) : SyncResult E A
  | fault (e : E) : SyncResult E A
deriving DecidableEq

/-- Outcome of `runAsPromise` at the host boundary: the promise resolves with
the success value or rejects with the failure value. -/
inductive PromiseResult (E A : Type) : Type where
  | resolved (a : A) : PromiseResult E A
  | rejected (e : E) : PromiseResult E A
deriving DecidableEq

/-- Modelled from the spec: the library's Effect.runSync, missing from the
sources.  Executes the computation immediately; a success value is returned,
a failure is converted into a raised fault carrying the failure value. -/
def runSynchronously {E A : Type} (c : DC E A) : SyncResult E A :=
  match c.run with
  | Except.ok a => SyncResult.value a
  | Except.error e => SyncResult.fault e

/-- Modelled from the spec: the library's Effect.runPromise, missing from the
sources.  Executes the computation and delivers the outcome through a
promise: resolves with the success value, rejects with the failure value. -/
def runAsPromise {E A : Type} (c : DC E A) : PromiseResult E A :=
  match c.run with
  | Except.ok a => PromiseResult.resolved a
  | Except.error e => PromiseResult.rejected e

/-- Modelled from the spec: Effect.succeed / ofSuccess, a deferred
computation that will always yield the given value on execution. -/
def ofSuccess {E A : Type} (a : A) : DC E A :=
  DC.succeed a

/-- Modelled from the spec: Effect.fail / ofFailure, a deferred computation
that will always yield the given error as a failure on execution. -/
def ofFailure {E A : Type} (e : E) : DC E A :=
  DC.fail e

/-- add from src/1-example.effect.ts: wraps the sum in an immediately
succeeding effect. -/
def add (a b : ℚ) : DC Empty ℚ :=
  DC.succeed (a + b)

/-- subtract from src/1-example.effect.ts. -/
def subtract (a b : ℚ) : DC Empty ℚ :=
  DC.succeed (a - b)

/-- multiply from src/1-example.effect.ts. -/
def multiply (a b : ℚ) : DC Empty ℚ :=
  DC.succeed (a * b)

/-- divide from src/1-example.effect.ts: fails with a plain string message on
a zero divisor, otherwise succeeds with the quotient. -/
def divide (a b : ℚ) : DC String ℚ :=
  if b = 0 then DC.fail "Cannot divide by zero"
  else DC.succeed (a / b)

/-- The ErrorDivideByZero class of src/1-example.effect.ts: a tagged error
with a read-only discriminator, a read-only message, and the two offending
operands stored as read-only fields. -/
structure ErrorDivideByZero : Type where
  _tag : String
  message : String
  dividend : ℚ
  divisor : ℚ
deriving DecidableEq

/-- The class constructor of ErrorDivideByZero: takes the dividend and the
divisor, and fixes the discriminator to the class name and the message to
the divide-by-zero text. -/
def newErrorDivideByZero (dividend divisor : ℚ) : ErrorDivideByZero :=
  { _tag := "ErrorDivideByZero"
    message := "Cannot divide by zero"
    dividend := dividend
    divisor := divisor }

/-- divideWithCustomError from src/1-example.effect.ts: fails with a freshly
constructed ErrorDivideByZero carrying both operands on a zero divisor,
otherwise succeeds with the quotient. -/
def divideWithCustomError (a b : ℚ) : DC ErrorDivideByZero ℚ :=
  if b = 0 then DC.fail (newErrorDivideByZero a b)
  else DC.succeed (a / b)

/-- safeDivide from src/1-example.effect.ts: divideWithCustomError(6, 0)
piped through Effect.catchAll with a handler that recovers with the default
value 0.  The handler's console logging is outside the contract. -/
def safeDivide : DC ErrorDivideByZero ℚ :=
  DC.catchAll (divideWithCustomError 6 0) (fun _ => DC.succeed 0)

/-- handleSpecificError from src/1-example.effect.ts:
divideWithCustomError(10, 0) piped through Effect.catchTag dispatching on the
error's discriminator, recovering with the sentinel value -1. -/
def handleSpecificError : DC ErrorDivideByZero ℚ :=
  DC.catchTag (fun e => e._tag) "ErrorDivideByZero"
    (divideWithCustomError 10 0) (fun _ => DC.succeed (-1))

/-- A JavaScript Error object as the plain-TypeScript file uses it: a name
(the discriminator JavaScript exposes) and a message.  The plain file's
ErrorDivideByZero subclass carries no operand payload. -/
structure JsError : Type where
  name : String
  message : String
deriving DecidableEq

/-- throw new Error(msg) as used by the plain divide: name is the base class
name, message is the argument. -/
def newJsError (msg : String) : JsError :=
  { name := "Error", message := msg }

/-- The ErrorDivideByZero class of the plain-TypeScript file: extends Error,
calls super with the divide-by-zero message and sets the name to the class
name.  Its constructor takes no arguments and stores no operands. -/
def newJsErrorDivideByZero : JsError :=
  { name := "ErrorDivideByZero", message := "Cannot divide by zero" }

/-- divide from the plain-TypeScript file: throws Error("Cannot divide by
zero") on a zero divisor, otherwise returns the quotient.  Throwing is
modelled with Except. -/
def divideThrow (a b : ℚ) : Except JsError ℚ :=
  if b = 0 then Except.error (newJsError "Cannot divide by zero")
  else Except.ok (a / b)

/-- divideWithCustomError from the plain-TypeScript file: throws a fresh
ErrorDivideByZero on a zero divisor, otherwise returns the quotient. -/
def divideWithCustomErrorThrow (a b : ℚ) : Except JsError ℚ :=
  if b = 0 then Except.error newJsErrorDivideByZero
  else Except.ok (a / b)

/-- Modelled from the spec: a single execution step returns the outcome and
hands back the computation value it ran, so that mutation of the value by an
execution would be observable across repeated runs. -/
def DC.runOnce {E A : Type} (c : DC E A) : Except E A × DC E A :=
  (c.run, c)

/-- Modelled from the spec: executing the same deferred computation value n
times in sequence, each execution interpreting whatever value the previous
execution handed back. -/
def DC.runSequence : {E A : Type} → DC E A → Nat → List (Except E A)
  | _, _, _, 0 => []
  | _, _, c, n + 1 =>
    match c.runOnce with
    | (r, c2) => r :: c2.runSequence n

theorem DC.runTrace_eta {E A : Type} (c : DC E A) :
    c.runTrace = (c.run, c.handlerCalls) :=
  rfl

theorem DC.runTrace_catchAll_ok {E E2 A : Type} (c : DC E A) (h : E → DC E2 A)
    (a : A) (n : Nat) (hc : c.runTrace = (Except.ok a, n)) :
    (DC.catchAll c h).runTrace = (Except.ok a, n) := by
  simp only [DC.runTrace, hc]

theorem DC.runTrace_catchAll_error {E E2 A : Type} (c : DC E A) (h : E → DC E2 A)
    (e : E) (n : Nat) (hc : c.runTrace = (Except.error e, n)) :
    (DC.catchAll c h).runTrace = ((h e).runTrace.1, n + (h e).runTrace.2 + 1) := by
  simp only [DC.runTrace, hc]

theorem DC.runTrace_catchTag_ok {E A : Type} (tagOf : E → String) (tg : String)
    (c : DC E A) (h : E → DC E A) (a : A) (n : Nat)
    (hc : c.runTrace = (Except.ok a, n)) :
    (DC.catchTag tagOf tg c h).runTrace = (Except.ok a, n) := by
  simp only [DC.runTrace, hc]

theorem DC.runTrace_catchTag_error {E A : Type} (tagOf : E → String) (tg : String)
    (c : DC E A) (h : E → DC E A) (e : E) (n : Nat)
    (hc : c.runTrace = (Except.error e, n)) :
    (DC.catchTag tagOf tg c h).runTrace =
      (if tagOf e = tg then ((h e).runTrace.1, n + (h e).runTrace.2 + 1)
       else (Except.error e, n)) := by
  simp only [DC.runTrace, hc]

/-- C3: catchAll on a failing computation invokes the handler exactly once,
with the failure value, during execution, and the overall result is whatever
the handler's replacement computation yields; on a succeeding computation the
handler is never invoked and the success value passes through unchanged. -/
theorem claim3_catchAll_spec {E E2 A : Type} (c : DC E A) (h : E → DC E2 A) :
    (∀ e, c.run = Except.error e →
        (DC.catchAll c h).run = (h e).run
        ∧ (DC.catchAll c h).handlerCalls = c.handlerCalls + (h e).handlerCalls + 1)
    ∧ (∀ a, c.run = Except.ok a →
        (DC.catchAll c h).run = Except.ok a
        ∧ (DC.catchAll c h).handlerCalls = c.handlerCalls) := by
  constructor
  · intro e hc
    have hrt : c.runTrace = (Except.error e, c.handlerCalls) := by
      rw [DC.runTrace_eta, hc]
    have h2 := DC.runTrace_catchAll_error c h e c.handlerCalls hrt
    constructor
    · show (DC.catchAll c h).runTrace.1 = (h e).runTrace.1
      rw [h2]
    · show (DC.catchAll c h).runTrace.2 = c.handlerCalls + (h e).runTrace.2 + 1
      rw [h2]
  · intro a hc
    have hrt : c.runTrace = (Except.ok a, c.handlerCalls) := by
      rw [DC.runTrace_eta, hc]
    have h2 := DC.runTrace_catchAll_ok c h a c.handlerCalls hrt
    constructor
    · show (DC.catchAll c h).runTrace.1 = Except.ok a
      rw [h2]
    · show (DC.catchAll c h).runTrace.2 = c.handlerCalls
      rw [h2]

/-- Witness for C3 at concrete computations: a failing inner computation is
replaced by the handler result with exactly one handler call, and a
succeeding one passes through. -/
theorem claim3_catchAll_spec_witness :
    ((DC.fail "boom" : DC String ℚ).run = Except.error "boom"
      ∧ (DC.catchAll (DC.fail "boom" : DC String ℚ)
          (fun _ => (DC.succeed 5 : DC String ℚ))).run = Except.ok 5
      ∧ (DC.catchAll (DC.fail "boom" : DC String ℚ)
          (fun _ => (DC.succeed 5 : DC String ℚ))).handlerCalls = 1)
    ∧ ((DC.succeed 7 : DC String ℚ).run = Except.ok 7
      ∧ (DC.catchAll (DC.succeed 7 : DC String ℚ)
          (fun _ => (DC.succeed 5 : DC String ℚ))).run = Except.ok 7) := by
  have hfail := (claim3_catchAll_spec (DC.fail "boom" : DC String ℚ)
    (fun _ => (DC.succeed 5 : DC String ℚ))).1 "boom" rfl
  have hok := (claim3_catchAll_spec (DC.succeed 7 : DC String ℚ)
    (fun _ => (DC.succeed 5 : DC String ℚ))).2 7 rfl
  exact ⟨⟨rfl, hfail.1, hfail.2⟩, ⟨rfl, hok.1⟩⟩

/-- C4: both execution operations are pure pass-throughs of the terminal
outcome: runSynchronously returns the success value or raises a fault
carrying exactly the failure value, runAsPromise resolves with the success
value or rejects with the failure value, and neither introduces any other
outcome. -/
theorem claim4_run_pass_through {E A : Type} (c : DC E A) :
    (∀ a, runSynchronously c = SyncResult.value a ↔ c.run = Except.ok a)
    ∧ (∀ e, runSynchronously c = SyncResult.fault e ↔ c.run = Except.error e)
    ∧ (∀ a, runAsPromise c = PromiseResult.resolved a ↔ c.run = Except.ok a)
    ∧ (∀ e, runAsPromise c = PromiseResult.rejected e ↔ c.run = Except.error e) := by
  cases hr : c.run with
  | ok a => simp [runSynchronously, runAsPromise, hr]
  | error e => simp [runSynchronously, runAsPromise, hr]

/-- C6: catchTag with a non-matching discriminator propagates the failure
unchanged without invoking the handler; the handler fires (exactly once)
only when the discriminator equals the tag; successes pass through. -/
theorem claim6_catchTag_spec {E A : Type} (tagOf : E → String) (tg : String)
    (c : DC E A) (h : E → DC E A) :
    (∀ e, c.run = Except.error e → tagOf e ≠ tg →
        (DC.catchTag tagOf tg c h).run = Except.error e
        ∧ (DC.catchTag tagOf tg c h).handlerCalls = c.handlerCalls)
    ∧ (∀ e, c.run = Except.error e → tagOf e = tg →
        (DC.catchTag tagOf tg c h).run = (h e).run
        ∧ (DC.catchTag tagOf tg c h).handlerCalls
            = c.handlerCalls + (h e).handlerCalls + 1)
    ∧ (∀ a, c.run = Except.ok a →
        (DC.catchTag tagOf tg c h).run = Except.ok a) := by
  refine ⟨?_, ?_, ?_⟩
  · intro e hc hne
    have hrt : c.runTrace = (Except.error e, c.handlerCalls) := by
      rw [DC.runTrace_eta, hc]
    have h2 := DC.runTrace_catchTag_error tagOf tg c h e c.handlerCalls hrt
    rw [if_neg hne] at h2
    constructor
    · show (DC.catchTag tagOf tg c h).runTrace.1 = Except.error e
      rw [h2]
    · show (DC.catchTag tagOf tg c h).runTrace.2 = c.handlerCalls
      rw [h2]
  · intro e hc heq
    have hrt : c.runTrace = (Except.error e, c.handlerCalls) := by
      rw [DC.runTrace_eta, hc]
    have h2 := DC.runTrace_catchTag_error tagOf tg c h e c.handlerCalls hrt
    rw [if_pos heq] at h2
    constructor
    · show (DC.catchTag tagOf tg c h).runTrace.1 = (h e).runTrace.1
      rw [h2]
    · show (DC.catchTag tagOf tg c h).runTrace.2
        = c.handlerCalls + (h e).runTrace.2 + 1
      rw [h2]
  · intro a hc
    have hrt : c.runTrace = (Except.ok a, c.handlerCalls) := by
      rw [DC.runTrace_eta, hc]
    have h2 := DC.runTrace_catchTag_ok tagOf tg c h a c.handlerCalls hrt
    show (DC.catchTag tagOf tg c h).runTrace.1 = Except.ok a
    rw [h2]

/-- Witness for C6 at concrete computations: a failure with a different
discriminator propagates unchanged with no handler call, a failure with the
matching discriminator is handled. -/
theorem claim6_catchTag_spec_witness :
    ((DC.catchTag (fun s => s) "ErrorDivideByZero" (DC.fail "Other" : DC String ℚ)
        (fun _ => DC.succeed 0)).run = Except.error "Other"
      ∧ (DC.catchTag (fun s => s) "ErrorDivideByZero" (DC.fail "Other" : DC String ℚ)
        (fun _ => DC.succeed 0)).handlerCalls = 0)
    ∧ (DC.catchTag (fun s => s) "ErrorDivideByZero"
        (DC.fail "ErrorDivideByZero" : DC String ℚ)
        (fun _ => DC.succeed 0)).run = Except.ok 0 := by
  have hmiss := (claim6_catchTag_spec (fun s => s) "ErrorDivideByZero"
    (DC.fail "Other" : DC String ℚ) (fun _ => DC.succeed 0)).1 "Other" rfl
    (by decide)
  have hhit := ((claim6_catchTag_spec (fun s => s) "ErrorDivideByZero"
    (DC.fail "ErrorDivideByZero" : DC String ℚ) (fun _ => DC.succeed 0)).2.1
    "ErrorDivideByZero" rfl rfl)
  exact ⟨⟨hmiss.1, hmiss.2⟩, hhit.1⟩

/-- C8: executing the same deferred computation value repeatedly always
yields the same outcome, and an execution hands the computation value back
unchanged (executions do not mutate it). -/
theorem claim8_run_idempotent {E A : Type} (c : DC E A) (n : Nat) :
    c.runSequence n = List.replicate n c.run ∧ c.runOnce.2 = c := by
  refine ⟨?_, rfl⟩
  induction n with
  | zero => rfl
  | succ k ih => simp [DC.runSequence, DC.runOnce, List.replicate, ih]

/-- C1: with a zero divisor, every divide-like computation yields a failure
and never a success value, and the failure carries either the plain message
"Cannot divide by zero" or a tagged error discriminated by
"ErrorDivideByZero" whose payload is the two operands; this holds for the
effect-style and the throwing implementations alike. -/
theorem claim1_divide_by_zero_always_fails (a : ℚ) :
    ((∀ q : ℚ, (divide a 0).run ≠ Except.ok q)
      ∧ (divide a 0).run = Except.error "Cannot divide by zero")
    ∧ ((∀ q : ℚ, (divideWithCustomError a 0).run ≠ Except.ok q)
      ∧ ∃ err : ErrorDivideByZero, (divideWithCustomError a 0).run = Except.error err
          ∧ err._tag = "ErrorDivideByZero" ∧ err.dividend = a ∧ err.divisor = 0)
    ∧ ((∀ q : ℚ, divideThrow a 0 ≠ Except.ok q)
      ∧ ∃ je : JsError, divideThrow a 0 = Except.error je
          ∧ je.message = "Cannot divide by zero")
    ∧ ((∀ q : ℚ, divideWithCustomErrorThrow a 0 ≠ Except.ok q)
      ∧ ∃ je : JsError, divideWithCustomErrorThrow a 0 = Except.error je
          ∧ (je.message = "Cannot divide by zero" ∨ je.name = "ErrorDivideByZero")) := by
  refine ⟨⟨?_, ?_⟩, ⟨?_, newErrorDivideByZero a 0, ?_, rfl, rfl, rfl⟩,
    ⟨?_, newJsError "Cannot divide by zero", ?_, rfl⟩,
    ⟨?_, newJsErrorDivideByZero, ?_, Or.inl rfl⟩⟩ <;>
  simp [divide, divideWithCustomError, divideThrow, divideWithCustomErrorThrow,
    DC.run, DC.runTrace]

/-- C2: with a nonzero divisor, every divide-like computation succeeds and
the result is exactly the quotient a / b of the host numeric type (modelled
as exact rational division). -/
theorem claim2_divide_nonzero_exact (a b : ℚ) (hb : b ≠ 0) :
    runSynchronously (divide a b) = SyncResult.value (a / b)
    ∧ runSynchronously (divideWithCustomError a b) = SyncResult.value (a / b)
    ∧ divideThrow a b = Except.ok (a / b)
    ∧ divideWithCustomErrorThrow a b = Except.ok (a / b) := by
  refine ⟨?_, ?_, ?_, ?_⟩ <;>
  simp [divide, divideWithCustomError, divideThrow, divideWithCustomErrorThrow,
    runSynchronously, DC.run, DC.runTrace, hb]

/-- Witness for C2 at a = 6, b = 3: the quotient is exactly 2. -/
theorem claim2_divide_nonzero_exact_witness :
    (runSynchronously (divide 6 3) = SyncResult.value (6 / 3)
      ∧ runSynchronously (divideWithCustomError 6 3) = SyncResult.value (6 / 3)
      ∧ divideThrow 6 3 = Except.ok (6 / 3)
      ∧ divideWithCustomErrorThrow 6 3 = Except.ok (6 / 3))
    ∧ (6 : ℚ) / 3 = 2 :=
  ⟨claim2_divide_nonzero_exact 6 3 (by norm_num), by norm_num⟩

/-- C5: the string-error division and the tagged-error division are
behaviorally equivalent: they fail exactly when the divisor is zero, and
otherwise succeed with the same quotient; the failure payloads differ only
in richness (a plain message versus a tagged error carrying the operands
and the same message text). -/
theorem claim5_divide_variants_equivalent (a b : ℚ) :
    (b = 0 →
      (divide a b).run = Except.error "Cannot divide by zero"
      ∧ (divideWithCustomError a b).run = Except.error (newErrorDivideByZero a b)
      ∧ (newErrorDivideByZero a b).message = "Cannot divide by zero")
    ∧ (b ≠ 0 →
      (divide a b).run = Except.ok (a / b)
      ∧ (divideWithCustomError a b).run = Except.ok (a / b))
    ∧ ((divide a b).run.isOk ↔ (divideWithCustomError a b).run.isOk)
    ∧ (∀ q : ℚ, (divide a b).run = Except.ok q
        ↔ (divideWithCustomError a b).run = Except.ok q) := by
  by_cases hb : b = 0 <;>
    simp [divide, divideWithCustomError, DC.run, DC.runTrace, hb, Except.isOk,
      Except.toBool, newErrorDivideByZero]

/-- Witness for C5 at both a failing input (1, 0) and a succeeding input
(6, 3). -/
theorem claim5_divide_variants_equivalent_witness :
    ((divide 1 0).run = Except.error "Cannot divide by zero"
      ∧ (divideWithCustomError 1 0).run = Except.error (newErrorDivideByZero 1 0))
    ∧ ((divide 6 3).run = Except.ok (6 / 3)
      ∧ (divideWithCustomError 6 3).run = Except.ok (6 / 3)) := by
  have h0 := (claim5_divide_variants_equivalent 1 0).1 rfl
  have h3 := (claim5_divide_variants_equivalent 6 3).2.1 (by norm_num)
  exact ⟨⟨h0.1, h0.2.1⟩, h3⟩

/-- C7: construction is inert: each builder returns a first-class
description (a succeed or fail datum), no fault arises at construction even
for a zero divisor, and the outcome, including the fault for a failing
computation, materializes only through the separate execution step. -/
theorem claim7_construction_is_inert (v : ℚ) (e : String) (a b : ℚ) :
    (ofSuccess v : DC String ℚ) = DC.succeed v
    ∧ (ofFailure e : DC String ℚ) = DC.fail e
    ∧ runSynchronously (ofSuccess v : DC String ℚ) = SyncResult.value v
    ∧ runSynchronously (ofFailure e : DC String ℚ) = SyncResult.fault e
    ∧ add a b = DC.succeed (a + b)
    ∧ subtract a b = DC.succeed (a - b)
    ∧ multiply a b = DC.succeed (a * b)
    ∧ divide a b
        = (if b = 0 then DC.fail "Cannot divide by zero" else DC.succeed (a / b))
    ∧ divideWithCustomError a b
        = (if b = 0 then DC.fail (newErrorDivideByZero a b) else DC.succeed (a / b))
    ∧ divide a 0 = DC.fail "Cannot divide by zero"
    ∧ runSynchronously (divide a 0) = SyncResult.fault "Cannot divide by zero" := by
  refine ⟨rfl, rfl, rfl, rfl, rfl, rfl, rfl, rfl, rfl, ?_, ?_⟩ <;>
  simp [divide, runSynchronously, DC.run, DC.runTrace]

/-- C9: the concrete scenarios of the source file: the arithmetic examples,
the catchAll recovery of divide(6, 0) to 0, and the catchTag recovery of
divide(10, 0) to -1. -/
theorem claim9_concrete_scenarios :
    runSynchronously (add 1 2) = SyncResult.value 3
    ∧ runSynchronously (subtract 5 2) = SyncResult.value 3
    ∧ runSynchronously (multiply 3 4) = SyncResult.value 12
    ∧ runSynchronously (divide 6 3) = SyncResult.value 2
    ∧ runSynchronously safeDivide = SyncResult.value 0
    ∧ runSynchronously handleSpecificError = SyncResult.value (-1) := by
  refine ⟨?_, ?_, ?_, ?_, ?_, ?_⟩ <;>
  norm_num [add, subtract, multiply, divide, divideWithCustomError, safeDivide,
    handleSpecificError, newErrorDivideByZero, runSynchronously, DC.run,
    DC.runTrace]

/-- C10: every instance the ErrorDivideByZero constructor produces has the
fixed discriminator "ErrorDivideByZero" and the fixed message "Cannot divide
by zero", and stores the two constructor arguments unchanged as its dividend
and divisor fields. -/
theorem claim10_tagged_error_fields (dv ds : ℚ) :
    (newErrorDivideByZero dv ds)._tag = "ErrorDivideByZero"
    ∧ (newErrorDivideByZero dv ds).message = "Cannot divide by zero"
    ∧ (newErrorDivideByZero dv ds).dividend = dv
    ∧ (newErrorDivideByZero dv ds).divisor = ds :=
  ⟨rfl, rfl, rfl, rfl⟩

end EffectsPoc
